import Mathlib

/-
Shallow embedding of the backend in src/main.py.

The embedding covers the pieces the verified properties talk about:
the emergency lookup fallback chain of the endpoint handler
emergency_lookup, its inner helper local_emergency together with the
static tables DEFAULT_EMERGENCY_NUMBERS and SAMPLE_HOSPITALS, and the
chatbot classifier generate_bot_reply.

Modelling conventions:
- Python strings are Lean String values; operations that Python performs on
  them (lower, strip, the in operator for substring tests, truthiness) are
  embedded as executable Lean functions over the underlying character
  lists, matching the Python semantics on the ASCII range.
- Optional values (Python None) are Option.
- The single outbound HTTP call to the geocoding service is modelled by a
  GeoOutcome value passed as an explicit argument: it enumerates the ways
  the try block around the call can end (an exception, a non-2xx response,
  an empty or non-list body, or a parsed first item).  Per the permissive
  parse described by the data model, a parsed item carries the two fields
  the handler reads, display_name and the phone entry of extratags, each
  an optional string.
-/

/-- Whitespace test matching the characters removed by the Python strip
method on the ASCII range: space, tab, newline, vertical tab, form feed,
carriage return. -/
def isWS (c : Char) : Bool :=
  decide (c.toNat = 32 ∨ c.toNat = 9 ∨ c.toNat = 10 ∨ c.toNat = 13 ∨
          c.toNat = 11 ∨ c.toNat = 12)

/-- Character lowercasing matching the Python lower method on the ASCII
range: the 26 basic latin capital letters are shifted down by 32, every
other character is unchanged. -/
def lowerChar (c : Char) : Char :=
  if 65 ≤ c.toNat ∧ c.toNat ≤ 90 then Char.ofNat (c.toNat + 32) else c

/-- Embedding of the Python lower method on whole strings. -/
def pyLower (s : String) : String :=
  ⟨s.data.map lowerChar⟩

/-- Embedding of the Python strip method on character lists: drop leading
and trailing whitespace. -/
def stripL (l : List Char) : List Char :=
  ((l.dropWhile isWS).reverse.dropWhile isWS).reverse

/-- Test that the second list is an initial segment of the first. -/
def startsWithL : List Char → List Char → Bool
  | _, [] => true
  | [], _ :: _ => false
  | c :: cs, d :: ds => c == d && startsWithL cs ds

/-- Embedding of the Python in operator on strings: contiguous substring
containment of the needle nd in the haystack. -/
def hasSub : List Char → List Char → Bool
  | [], nd => nd.isEmpty
  | c :: tl, nd => startsWithL (c :: tl) nd || hasSub tl nd

/-- Truthiness of an optional string, as Python evaluates it in a boolean
context: None and the empty string are falsy. -/
def pyTruthy : Option String → Bool
  | none => false
  | some s => !(s == "")

/-- Embedding of the Python expression q or d for an optional string q and
a string default d. -/
def pyOr (q : Option String) (d : String) : String :=
  match q with
  | none => d
  | some s => if s == "" then d else s

/-- Lookup in an association list with string keys, embedding the get
method of a Python dict built from distinct keys in order. -/
def dictGet (d : List (String × String)) (k : String) : Option String :=
  (d.find? (fun p => p.1 == k)).map (fun p => p.2)

/-- Static table DEFAULT_EMERGENCY_NUMBERS of src/main.py. -/
def DEFAULT_EMERGENCY_NUMBERS : List (String × String) :=
  [("global", "112"), ("us", "911"), ("uk", "999"), ("eu", "112"), ("in", "112")]

/-- Record shape of the entries of SAMPLE_HOSPITALS; every entry of the
source table carries all four keys. -/
structure Hospital where
  city : String
  name : String
  phone : String
  address : String
deriving DecidableEq

/-- Static table SAMPLE_HOSPITALS of src/main.py. -/
def SAMPLE_HOSPITALS : List Hospital :=
  [⟨"san francisco", "Zuckerberg San Francisco General Hospital", "+1 628-206-8000", "1001 Potrero Ave, San Francisco, CA"⟩,
   ⟨"new york", "NYU Langone Health", "+1 212-263-7300", "550 1st Ave, New York, NY"⟩,
   ⟨"london", "St Thomas\x27 Hospital", "+44 20 7188 7188", "Westminster Bridge Rd, London"⟩,
   ⟨"bangalore", "Manipal Hospital", "+91 80 2502 5555", "HAL Old Airport Rd, Bengaluru"⟩]

/-- Response model EmergencyResponse of src/main.py. -/
structure EmergencyResponse where
  query : Option String
  name : String
  address : Option String
  phone : String
  note : Option String
deriving DecidableEq

/-- Fields of the first item of a successful geocoding response body that
the handler reads: display_name, and the phone entry of extratags.  Either
may be absent; per the permissive parse of the data model both are
modelled as optional strings. -/
structure GeoItem where
  display_name : Option String
  extratags_phone : Option String
deriving DecidableEq

/-- Outcome of the outbound geocoding call: the request or the body parse
raised, the response was not 2xx, the body was not a nonempty list, or a
first item was obtained. -/
inductive GeoOutcome where
  | exc
  | notOk
  | badBody
  | hit (item : GeoItem)
deriving DecidableEq

/-- Predicate selecting every failure outcome of the geocoding stage. -/
def isMiss : GeoOutcome → Bool
  | .hit _ => false
  | _ => true

/-- Helper local_emergency of emergency_lookup in src/main.py: a falsy
country code gives the global entry, otherwise the lowercased code is
looked up with the global entry as default.  The global key is present in
the table, so the empty-string default of getD is never produced. -/
def local_emergency : Option String → String
  | none => (dictGet DEFAULT_EMERGENCY_NUMBERS "global").getD ""
  | some s =>
    if s == "" then (dictGet DEFAULT_EMERGENCY_NUMBERS "global").getD ""
    else (dictGet DEFAULT_EMERGENCY_NUMBERS (pyLower s)).getD
           ((dictGet DEFAULT_EMERGENCY_NUMBERS "global").getD "")

/-- Values of the local variables name, address, phone after the try block
of emergency_lookup, as a function of the call outcome: on a hit, name is
display_name with the literal Nearest Hospital as dict-get default,
address is display_name, phone is the extratags phone; every failure
outcome leaves all three unset. -/
def geoFields (g : GeoOutcome) : Option String × Option String × Option String :=
  match g with
  | .hit item => (some (item.display_name.getD "Nearest Hospital"), item.display_name, item.extratags_phone)
  | _ => (none, none, none)

/-- Condition under which emergency_lookup issues an outbound request: both
coordinates present, or else a truthy query. -/
def attemptsExternal (q : Option String) (lat lon : Option Rat) : Bool :=
  (lat.isSome && lon.isSome) || pyTruthy q

/-- Scan of SAMPLE_HOSPITALS in emergency_lookup: the first entry whose
city key is a substring of the lowercased query wins. -/
def findSample (city : String) : Option Hospital :=
  SAMPLE_HOSPITALS.find? (fun h => hasSub city.data h.city.data)

/-- External stage of emergency_lookup: the geocoding fields when a request
is attempted, otherwise all three variables stay unset. -/
def stage0 (geo : GeoOutcome) (q : Option String) (lat lon : Option Rat) :
    Option String × Option String × Option String :=
  if attemptsExternal q lat lon then geoFields geo else (none, none, none)

/-- Sample-table stage of emergency_lookup: when name is falsy and the
query is truthy, the scan of SAMPLE_HOSPITALS may overwrite all three
variables; otherwise they pass through unchanged. -/
def stage1 (q : Option String) (t : Option String × Option String × Option String) :
    Option String × Option String × Option String :=
  if !(pyTruthy t.1) && pyTruthy q then
    match findSample (pyLower (q.getD "")) with
    | some h => (some h.name, some h.address, some h.phone)
    | none => t
  else t

/-- Handler emergency_lookup of src/main.py, with the outcome of the
outbound geocoding call made explicit as the first argument.  After the
external and sample stages, a falsy name becomes the placeholder together
with an address of the query or the literal Your area, a falsy phone
becomes the synthesized local-emergency string, the query is echoed and
the note is fixed. -/
def emergency_lookup (geo : GeoOutcome) (q : Option String)
    (lat lon : Option Rat) (country : Option String) : EmergencyResponse :=
  let t := stage1 q (stage0 geo q lat lon)
  { query := q
    name := if pyTruthy t.1 then (t.1).getD "" else "Nearest Emergency Hospital"
    address := if pyTruthy t.1 then t.2.1 else some (pyOr q "Your area")
    phone := if pyTruthy t.2.2 then (t.2.2).getD ""
             else "Local emergency: " ++ local_emergency country
    note := some "If this is life-threatening, call emergency now." }

/-- Keyword set of the first category of generate_bot_reply. -/
def emergencyKeywords : List String := ["emergency", "bleeding", "unconscious", "chest pain"]

/-- Keyword set of the second category of generate_bot_reply. -/
def feverKeywords : List String := ["fever", "temperature", "flu"]

/-- Keyword set of the third category of generate_bot_reply. -/
def headacheKeywords : List String := ["headache", "migraine"]

/-- Keyword set of the fourth category of generate_bot_reply. -/
def respiratoryKeywords : List String := ["covid", "cough", "cold"]

/-- Reply of generate_bot_reply for empty normalized input. -/
def greetingReply : String :=
  "Hello! I\x27m your medical assistant. How can I help you today?"

/-- Reply of generate_bot_reply for the emergency category. -/
def emergencyReply : String :=
  "This may be an emergency. Please call your local emergency number immediately or visit the nearest hospital. Do you want me to find nearby hospitals?"

/-- Reply of generate_bot_reply for the fever category. -/
def feverReply : String :=
  "For fever, rest, stay hydrated, and consider acetaminophen as directed. If fever persists >48 hours or is very high, consult a doctor."

/-- Reply of generate_bot_reply for the headache category. -/
def headacheReply : String :=
  "Headaches can have many causes. Try hydration, rest, and avoiding bright screens. Seek care if it\x27s severe, sudden, or with neurological symptoms."

/-- Reply of generate_bot_reply for the respiratory category. -/
def respiratoryReply : String :=
  "If you have cough or cold symptoms, rest, fluids, and isolation may help. Test if concerned and seek care for breathing difficulty."

/-- Reply of generate_bot_reply when no category matches. -/
def defaultReply : String :=
  "I hear you. Could you share a bit more about your symptoms, duration, and any medications? I\x27ll guide you next."

/-- Normalization step of generate_bot_reply: strip surrounding whitespace,
then lowercase. -/
def normalizeText (text : String) : List Char :=
  (stripL text.data).map lowerChar

/-- Test whether some keyword of the set is contained in the normalized
text, as the any expressions of generate_bot_reply compute it. -/
def anyKeyword (ks : List String) (t : List Char) : Bool :=
  ks.any (fun k => hasSub t k.data)

/-- Category dispatch of generate_bot_reply on the normalized text. -/
def classifyCore (t : List Char) : String :=
  if t = [] then greetingReply
  else if anyKeyword emergencyKeywords t then emergencyReply
  else if anyKeyword feverKeywords t then feverReply
  else if anyKeyword headacheKeywords t then headacheReply
  else if anyKeyword respiratoryKeywords t then respiratoryReply
  else defaultReply

/-- Chatbot classifier generate_bot_reply of src/main.py. -/
def generate_bot_reply (text : String) : String :=
  classifyCore (normalizeText text)

/-- Lowercased two-character truncation of a string, articulating the
first-two-character reading of the country code that the specification
describes. -/
def firstTwoLower (s : String) : List Char :=
  (s.data.map lowerChar).take 2

/-- Characters are determined by their code point. -/
theorem char_eq_of_toNat_eq {a b : Char} (h : a.toNat = b.toNat) : a = b := by
  rw [← Char.ofNat_toNat a, ← Char.ofNat_toNat b, h]

/-- Code point of Char.ofNat below the surrogate range. -/
theorem toNat_ofNat_of_lt {n : Nat} (h : n < 55296) : (Char.ofNat n).toNat = n := by
  have hv : n.isValidChar := Or.inl h
  rw [Char.ofNat, dif_pos hv]
  rfl

/-- Code point of a lowercased character. -/
theorem toNat_lowerChar (c : Char) :
    (lowerChar c).toNat =
      if 65 ≤ c.toNat ∧ c.toNat ≤ 90 then c.toNat + 32 else c.toNat := by
  by_cases h : 65 ≤ c.toNat ∧ c.toNat ≤ 90
  · rw [lowerChar, if_pos h, if_pos h]
    exact toNat_ofNat_of_lt (by omega)
  · rw [lowerChar, if_neg h, if_neg h]

/-- Lowercasing preserves the whitespace test. -/
theorem isWS_lowerChar (c : Char) : isWS (lowerChar c) = isWS c := by
  rw [isWS, isWS, toNat_lowerChar]
  by_cases h : 65 ≤ c.toNat ∧ c.toNat ≤ 90
  · rw [if_pos h]
    exact decide_eq_decide.mpr (by omega)
  · rw [if_neg h]

/-- Lowercasing characters is idempotent. -/
theorem lowerChar_idem (c : Char) : lowerChar (lowerChar c) = lowerChar c := by
  apply char_eq_of_toNat_eq
  rw [toNat_lowerChar (lowerChar c), toNat_lowerChar c]
  by_cases h : 65 ≤ c.toNat ∧ c.toNat ≤ 90
  · rw [if_pos h, if_neg (by omega)]
  · rw [if_neg h, if_neg h]

/-- Function form of isWS_lowerChar. -/
theorem comp_isWS_lowerChar : (isWS ∘ lowerChar) = isWS :=
  funext fun c => isWS_lowerChar c

/-- Function form of lowerChar_idem. -/
theorem comp_lowerChar_idem : (lowerChar ∘ lowerChar) = lowerChar :=
  funext fun c => lowerChar_idem c

/-- Stripping commutes with lowercasing on character lists. -/
theorem stripL_map_lower (l : List Char) :
    stripL (l.map lowerChar) = (stripL l).map lowerChar := by
  unfold stripL
  rw [List.dropWhile_map, comp_isWS_lowerChar, ← List.map_reverse,
      List.dropWhile_map, comp_isWS_lowerChar, ← List.map_reverse]

/-- Lowercasing a character list is idempotent. -/
theorem map_lowerChar_idem (l : List Char) :
    (l.map lowerChar).map lowerChar = l.map lowerChar := by
  rw [List.map_map, comp_lowerChar_idem]

/-- Normalization absorbs a prior lowercasing of the input. -/
theorem normalizeText_pyLower (s : String) :
    normalizeText (pyLower s) = normalizeText s := by
  show (stripL (s.data.map lowerChar)).map lowerChar = normalizeText s
  rw [stripL_map_lower, map_lowerChar_idem]
  rfl

/-- Lowercasing whole strings is idempotent. -/
theorem pyLower_idem (s : String) : pyLower (pyLower s) = pyLower s :=
  congrArg String.mk (map_lowerChar_idem s.data)

/-- Strings with empty character data are the empty string. -/
theorem string_eq_empty_of_data {s : String} (h : s.data = []) : s = "" := by
  cases s with
  | mk d => exact congrArg String.mk h

/-- Strings with nonempty character data are nonempty. -/
theorem string_ne_empty_of_data {s : String} (h : s.data ≠ []) : s ≠ "" := by
  intro e
  apply h
  rw [e]

/-- Lowercasing preserves nonemptiness of a string. -/
theorem pyLower_ne_empty {s : String} (h : s ≠ "") : pyLower s ≠ "" := by
  apply string_ne_empty_of_data
  show s.data.map lowerChar ≠ []
  intro e
  exact h (string_eq_empty_of_data (List.map_eq_nil_iff.mp e))

/-- Characterization of startsWithL by list decomposition. -/
theorem startsWithL_iff (nd : List Char) : ∀ l : List Char,
    startsWithL l nd = true ↔ ∃ q, l = nd ++ q := by
  induction nd with
  | nil => intro l; simp [startsWithL]
  | cons d ds ih =>
    intro l
    cases l with
    | nil => simp [startsWithL]
    | cons c cs => simp [startsWithL, ih cs]

/-- Characterization of hasSub by list decomposition. -/
theorem hasSub_iff (nd : List Char) : ∀ l : List Char,
    hasSub l nd = true ↔ ∃ p q, l = p ++ nd ++ q := by
  intro l
  induction l with
  | nil =>
    cases nd with
    | nil => simp [hasSub]
    | cons d ds => simp [hasSub]
  | cons c tl ih =>
    rw [hasSub, Bool.or_eq_true, startsWithL_iff nd, ih]
    constructor
    · rintro (⟨q, hq⟩ | ⟨p, q, hpq⟩)
      · exact ⟨[], q, by simpa using hq⟩
      · exact ⟨c :: p, q, by simp [hpq]⟩
    · rintro ⟨p, q, hpq⟩
      cases p with
      | nil => exact Or.inl ⟨q, by simpa using hpq⟩
      | cons a p =>
        simp only [List.cons_append, List.cons.injEq] at hpq
        exact Or.inr ⟨p, q, hpq.2⟩

/-- Substring containment is transitive. -/
theorem hasSub_trans {a b c : List Char} (h1 : hasSub a b = true)
    (h2 : hasSub b c = true) : hasSub a c = true := by
  rw [hasSub_iff] at h1 h2 ⊢
  obtain ⟨p, q, rfl⟩ := h1
  obtain ⟨p2, q2, h2⟩ := h2
  exact ⟨p ++ p2, q2 ++ q, by simp [h2]⟩

/-- Lists containing a nonempty substring are nonempty. -/
theorem ne_nil_of_hasSub {l nd : List Char} (h : hasSub l nd = true)
    (hnd : nd ≠ []) : l ≠ [] := by
  intro hl
  subst hl
  cases nd with
  | nil => exact hnd rfl
  | cons a b => simp [hasSub] at h

/-- Truthiness of a present string amounts to nonemptiness. -/
theorem pyTruthy_some_iff {s : String} : pyTruthy (some s) = true ↔ s ≠ "" := by
  simp [pyTruthy]

/-- Truthy optional strings stay nonempty after defaulting. -/
theorem getD_ne_empty {o : Option String} (h : pyTruthy o = true) :
    o.getD "" ≠ "" := by
  cases o with
  | none => simp [pyTruthy] at h
  | some s => simpa using pyTruthy_some_iff.mp h

/-- Synthesized phone strings are never empty. -/
theorem synthPhone_ne_empty (x : String) : "Local emergency: " ++ x ≠ "" := by
  apply string_ne_empty_of_data
  rw [String.data_append]
  intro h
  exact absurd (List.append_eq_nil.mp h).1 (by decide)

/-- Failure outcomes of the geocoding call leave all three variables unset. -/
theorem geoFields_of_miss {g : GeoOutcome} (h : isMiss g = true) :
    geoFields g = (none, none, none) := by
  cases g with
  | exc => rfl
  | notOk => rfl
  | badBody => rfl
  | hit item => simp [isMiss] at h

/-- External stage on a failure outcome, whether or not a request was
attempted. -/
theorem stage0_of_miss {g : GeoOutcome} (h : isMiss g = true)
    (q : Option String) (lat lon : Option Rat) :
    stage0 g q lat lon = (none, none, none) := by
  unfold stage0
  rw [geoFields_of_miss h]
  split <;> rfl

/-- Every entry of SAMPLE_HOSPITALS has a nonempty name, phone and city. -/
theorem sample_entries_sound :
    ∀ h ∈ SAMPLE_HOSPITALS, h.name ≠ "" ∧ h.phone ≠ "" ∧ h.city.data ≠ [] := by
  decide

/-- Matches of the sample scan are entries of the table. -/
theorem findSample_mem {c : String} {h : Hospital} (hf : findSample c = some h) :
    h ∈ SAMPLE_HOSPITALS :=
  List.mem_of_find?_eq_some hf

/-- Matches of the sample scan contain their city key. -/
theorem findSample_matches {c : String} {h : Hospital} (hf : findSample c = some h) :
    hasSub c.data h.city.data = true := by
  unfold findSample at hf
  simpa using List.find?_some hf

/-- Queries on which the sample scan succeeds are truthy. -/
theorem pyTruthy_of_findSample {q : String} {h : Hospital}
    (hf : findSample (pyLower q) = some h) : pyTruthy (some q) = true := by
  rw [pyTruthy_some_iff]
  intro e
  subst e
  rw [show findSample (pyLower "") = none by decide] at hf
  exact Option.noConfusion hf

/-- Sample stage after an external miss, when the scan finds an entry. -/
theorem stage1_match {q : String} {h : Hospital}
    (hf : findSample (pyLower q) = some h) :
    stage1 (some q) (none, none, none) = (some h.name, some h.address, some h.phone) := by
  have hq : (q == "") = false := by
    have h2 := pyTruthy_of_findSample hf
    rw [pyTruthy_some_iff] at h2
    exact beq_eq_false_iff_ne.mpr h2
  unfold stage1
  simp [hq, hf, pyTruthy]

/-- Sample stage passes the variables through when the query is falsy or
no entry matches. -/
theorem stage1_pass (q : Option String)
    (hq : pyTruthy q = false ∨ findSample (pyLower (q.getD "")) = none) :
    stage1 q (none, none, none) = (none, none, none) := by
  unfold stage1
  rcases hq with hq | hq
  · simp [hq]
  · rw [hq]
    split <;> rfl

/-- Record of emergency_lookup has a nonempty name, a nonempty phone, and
the fixed note, for every outcome and every combination of inputs. -/
theorem lookup_always_complete (geo : GeoOutcome) (q : Option String)
    (lat lon : Option Rat) (country : Option String) :
    (emergency_lookup geo q lat lon country).name ≠ "" ∧
    (emergency_lookup geo q lat lon country).phone ≠ "" ∧
    (emergency_lookup geo q lat lon country).note =
      some "If this is life-threatening, call emergency now." := by
  unfold emergency_lookup
  refine ⟨?_, ?_, rfl⟩
  · dsimp only
    split
    · next h => exact getD_ne_empty h
    · decide
  · dsimp only
    split
    · next h => exact getD_ne_empty h
    · exact synthPhone_ne_empty _

/-- Two failure outcomes of the external call produce identical records. -/
theorem lookup_miss_congr {g g' : GeoOutcome} (hg : isMiss g = true)
    (hg' : isMiss g' = true) (q : Option String) (lat lon : Option Rat)
    (country : Option String) :
    emergency_lookup g q lat lon country = emergency_lookup g' q lat lon country := by
  unfold emergency_lookup
  rw [stage0_of_miss hg, stage0_of_miss hg']

/-- Record fields after an external miss with a sample-table match. -/
theorem lookup_miss_sample {g : GeoOutcome} (hg : isMiss g = true) {q : String}
    {h : Hospital} (hf : findSample (pyLower q) = some h) (lat lon : Option Rat)
    (country : Option String) :
    (emergency_lookup g (some q) lat lon country).name = h.name ∧
    (emergency_lookup g (some q) lat lon country).address = some h.address ∧
    (emergency_lookup g (some q) lat lon country).phone = h.phone := by
  obtain ⟨hn, hp, _⟩ := sample_entries_sound h (findSample_mem hf)
  have hn2 : pyTruthy (some h.name) = true := pyTruthy_some_iff.mpr hn
  have hp2 : pyTruthy (some h.phone) = true := pyTruthy_some_iff.mpr hp
  unfold emergency_lookup
  rw [stage0_of_miss hg, stage1_match hf]
  refine ⟨?_, ?_, ?_⟩ <;> simp [hn2, hp2]

/-- Record fields after an external miss with no sample-table match. -/
theorem lookup_miss_placeholder {g : GeoOutcome} (hg : isMiss g = true)
    (q : Option String)
    (hq : pyTruthy q = false ∨ findSample (pyLower (q.getD "")) = none)
    (lat lon : Option Rat) (country : Option String) :
    (emergency_lookup g q lat lon country).name = "Nearest Emergency Hospital" ∧
    (emergency_lookup g q lat lon country).address = some (pyOr q "Your area") ∧
    (emergency_lookup g q lat lon country).phone =
      "Local emergency: " ++ local_emergency country := by
  unfold emergency_lookup
  rw [stage0_of_miss hg, stage1_pass q hq]
  exact ⟨rfl, rfl, rfl⟩

/-- Lookup of a country code is insensitive to its case. -/
theorem local_emergency_lower (cc : String) :
    local_emergency (some cc) = local_emergency (some (pyLower cc)) := by
  simp only [local_emergency]
  by_cases he : cc = ""
  · subst he
    rfl
  · rw [if_neg (by simpa using he), if_neg (by simpa using pyLower_ne_empty he),
        pyLower_idem]

/-- Lookup of a code whose lowercased form is not a table key gives the
global default. -/
theorem local_emergency_fallback (cc : String)
    (hn : dictGet DEFAULT_EMERGENCY_NUMBERS (pyLower cc) = none) :
    local_emergency (some cc) = local_emergency none := by
  simp only [local_emergency]
  by_cases he : cc = ""
  · subst he
    rfl
  · rw [if_neg (by simpa using he), hn]
    rfl

/-- Lookup of a code whose lowercased form is a table key gives that entry. -/
theorem local_emergency_hit (cc v : String)
    (hv : dictGet DEFAULT_EMERGENCY_NUMBERS (pyLower cc) = some v) :
    local_emergency (some cc) = v := by
  simp only [local_emergency]
  by_cases he : cc = ""
  · subst he
    rw [show dictGet DEFAULT_EMERGENCY_NUMBERS (pyLower "") = none by decide] at hv
    exact Option.noConfusion hv
  · rw [if_neg (by simpa using he), hv]
    rfl

/-- C1: for every combination of inputs and every outcome of the external
geocoding stage, the record returned by emergency_lookup has a nonempty
name, a nonempty phone, and the fixed populated note; the handler is a
total function and never fails the request. -/
theorem C1_always_complete_record (geo : GeoOutcome) (q : Option String)
    (lat lon : Option Rat) (country : Option String) :
    (emergency_lookup geo q lat lon country).name ≠ "" ∧
    (emergency_lookup geo q lat lon country).phone ≠ "" ∧
    (emergency_lookup geo q lat lon country).note =
      some "If this is life-threatening, call emergency now." :=
  lookup_always_complete geo q lat lon country

/-- C2, counterexample: the emergency-number lookup does not depend only on
the lowercase first two characters of the supplied value: the inputs usa
and us agree on their lowercase first two characters yet receive different
dialing strings, because the code keys the table on the full lowercased
value. -/
theorem C2_cex_not_first_two :
    firstTwoLower "usa" = firstTwoLower "us" ∧
    local_emergency (some "usa") ≠ local_emergency (some "us") := by
  decide

/-- C2, amended: for every countryCode string, the emergency-number lookup
depends only on the lowercase form of the whole supplied value: any value
is tolerated, and values whose lowercased form is not a table key fall
back to the global default number. -/
theorem C2_full_lowercase_lookup (cc : String) :
    local_emergency (some cc) = local_emergency (some (pyLower cc)) ∧
    (dictGet DEFAULT_EMERGENCY_NUMBERS (pyLower cc) = none →
      local_emergency (some cc) = local_emergency none) :=
  ⟨local_emergency_lower cc, local_emergency_fallback cc⟩

/-- C2, witness for the amended claim at the concrete input USA. -/
theorem C2_full_lowercase_lookup_wit :
    local_emergency (some "USA") = local_emergency (some (pyLower "USA")) ∧
    local_emergency (some "USA") = local_emergency none :=
  ⟨(C2_full_lowercase_lookup "USA").1, (C2_full_lowercase_lookup "USA").2 (by decide)⟩

/-- C3: for every query with no coordinates and a failing external call,
if the sample scan finds an entry whose city is contained in the lowercased
query (the scan returns the first such entry in table order) then that
entry supplies the returned name, phone and address. -/
theorem C3_sample_table_fallback (g : GeoOutcome) (hg : isMiss g = true)
    (q : String) (h : Hospital) (country : Option String)
    (hf : findSample (pyLower q) = some h) :
    (emergency_lookup g (some q) none none country).name = h.name ∧
    (emergency_lookup g (some q) none none country).phone = h.phone ∧
    (emergency_lookup g (some q) none none country).address = some h.address := by
  obtain ⟨h1, h2, h3⟩ := lookup_miss_sample hg hf none none country
  exact ⟨h1, h3, h2⟩

/-- C3, witness: the query downtown san francisco clinic with no
coordinates and an exception from the external service matches the san
francisco sample entry and returns its fixed phone and address. -/
theorem C3_sample_table_fallback_wit :
    isMiss GeoOutcome.exc = true ∧
    findSample (pyLower "downtown san francisco clinic") =
      some ⟨"san francisco", "Zuckerberg San Francisco General Hospital",
            "+1 628-206-8000", "1001 Potrero Ave, San Francisco, CA"⟩ ∧
    (emergency_lookup .exc (some "downtown san francisco clinic") none none none).phone =
      "+1 628-206-8000" ∧
    (emergency_lookup .exc (some "downtown san francisco clinic") none none none).address =
      some "1001 Potrero Ave, San Francisco, CA" :=
  ⟨rfl, by decide,
   (C3_sample_table_fallback .exc rfl "downtown san francisco clinic"
     ⟨"san francisco", "Zuckerberg San Francisco General Hospital",
      "+1 628-206-8000", "1001 Potrero Ave, San Francisco, CA"⟩ none (by decide)).2.1,
   (C3_sample_table_fallback .exc rfl "downtown san francisco clinic"
     ⟨"san francisco", "Zuckerberg San Francisco General Hospital",
      "+1 628-206-8000", "1001 Potrero Ave, San Francisco, CA"⟩ none (by decide)).2.2⟩

/-- C4: with both coordinates present and the external service unreachable
in any failure mode, the error is absorbed: any two failure outcomes give
identical records, the name falls back deterministically to the sample
stage and then the placeholder stage, and the phone is nonempty. -/
theorem C4_miss_absorbed_fallback (g g' : GeoOutcome) (hg : isMiss g = true)
    (hg' : isMiss g' = true) (q : Option String) (la lo : Rat)
    (country : Option String) :
    emergency_lookup g q (some la) (some lo) country =
      emergency_lookup g' q (some la) (some lo) country ∧
    (∀ s : String, ∀ h : Hospital, q = some s → findSample (pyLower s) = some h →
      (emergency_lookup g q (some la) (some lo) country).name = h.name) ∧
    ((pyTruthy q = false ∨ findSample (pyLower (q.getD "")) = none) →
      (emergency_lookup g q (some la) (some lo) country).name =
        "Nearest Emergency Hospital") ∧
    (emergency_lookup g q (some la) (some lo) country).phone ≠ "" := by
  refine ⟨lookup_miss_congr hg hg' q (some la) (some lo) country, ?_, ?_, ?_⟩
  · rintro s h rfl hf
    exact (lookup_miss_sample hg hf (some la) (some lo) country).1
  · intro hq
    exact (lookup_miss_placeholder hg q hq (some la) (some lo) country).1
  · exact (lookup_always_complete g q (some la) (some lo) country).2.1

/-- C4, witness at concrete coordinates with a timeout-style exception and
a query matching the new york sample entry. -/
theorem C4_miss_absorbed_fallback_wit :
    isMiss GeoOutcome.exc = true ∧
    (emergency_lookup .exc (some "visiting new york") (some 0) (some 0) none).name =
      "NYU Langone Health" ∧
    (emergency_lookup .exc (some "visiting new york") (some 0) (some 0) none).phone ≠ "" :=
  ⟨rfl,
   (C4_miss_absorbed_fallback .exc .notOk rfl rfl (some "visiting new york") 0 0 none).2.1
     "visiting new york"
     ⟨"new york", "NYU Langone Health", "+1 212-263-7300", "550 1st Ave, New York, NY"⟩
     rfl (by decide),
   (C4_miss_absorbed_fallback .exc .notOk rfl rfl (some "visiting new york") 0 0 none).2.2.2⟩

/-- C5: every countryCode whose lowercased form is not a key of the table
receives the same dialing string as an absent code, the global default;
and the lookup is case-insensitive, so any casing of a known code receives
that code's table entry. -/
theorem C5_unknown_code_global_default (cc : String) :
    (dictGet DEFAULT_EMERGENCY_NUMBERS (pyLower cc) = none →
      local_emergency (some cc) = local_emergency none) ∧
    (∀ v, dictGet DEFAULT_EMERGENCY_NUMBERS (pyLower cc) = some v →
      local_emergency (some cc) = v) :=
  ⟨local_emergency_fallback cc, fun v hv => local_emergency_hit cc v hv⟩

/-- C5, witness: the uppercase casing US receives the us entry, and the
unknown code xx receives the same value as an absent code. -/
theorem C5_unknown_code_global_default_wit :
    local_emergency (some "US") = "911" ∧
    local_emergency (some "xx") = local_emergency none :=
  ⟨(C5_unknown_code_global_default "US").2 "911" (by decide),
   (C5_unknown_code_global_default "xx").1 (by decide)⟩

/-- C6: every input whose normalized text contains an emergency keyword
receives the emergency-category guidance, regardless of any other keywords
the text contains; and the emergency guidance differs from the fever
guidance. -/
theorem C6_emergency_precedence (s : String)
    (h : anyKeyword emergencyKeywords (normalizeText s) = true) :
    generate_bot_reply s = emergencyReply ∧ emergencyReply ≠ feverReply := by
  refine ⟨?_, by decide⟩
  have ht : normalizeText s ≠ [] := by
    unfold anyKeyword at h
    obtain ⟨k, hk, hsub⟩ := List.any_eq_true.mp h
    refine ne_nil_of_hasSub hsub ?_
    have : ∀ k ∈ emergencyKeywords, k.data ≠ [] := by decide
    exact this k hk
  unfold generate_bot_reply classifyCore
  rw [if_neg ht, if_pos h]

/-- C6, witness: a text containing both a chest pain keyword and a fever
keyword selects the emergency category. -/
theorem C6_emergency_precedence_wit :
    anyKeyword emergencyKeywords (normalizeText "chest pain and fever") = true ∧
    anyKeyword feverKeywords (normalizeText "chest pain and fever") = true ∧
    generate_bot_reply "chest pain and fever" = emergencyReply :=
  ⟨by decide, by decide, (C6_emergency_precedence "chest pain and fever" (by decide)).1⟩

/-- C7: every input consisting only of whitespace characters, including the
empty string, receives one and the same fixed greeting. -/
theorem C7_blank_input_greeting (s : String) (h : s.data.all isWS = true) :
    generate_bot_reply s = greetingReply := by
  have h1 : stripL s.data = [] := by
    unfold stripL
    have h2 : s.data.dropWhile isWS = [] :=
      List.dropWhile_eq_nil_iff.mpr (by simpa [List.all_eq_true] using h)
    rw [h2]
    rfl
  unfold generate_bot_reply normalizeText
  rw [h1]
  rfl

/-- C7, witness: the empty string and a three-space string both receive the
identical fixed greeting. -/
theorem C7_blank_input_greeting_wit :
    "".data.all isWS = true ∧ "   ".data.all isWS = true ∧
    generate_bot_reply "" = generate_bot_reply "   " :=
  ⟨by decide, by decide,
   (C7_blank_input_greeting "" (by decide)).trans
     (C7_blank_input_greeting "   " (by decide)).symm⟩

/-- C8: the classifier is invariant under lowercasing of its input, and in
particular the inputs I have a Fever and fever select the same category. -/
theorem C8_case_insensitive_classify :
    (∀ s : String, generate_bot_reply s = generate_bot_reply (pyLower s)) ∧
    generate_bot_reply "I have a Fever" = generate_bot_reply "fever" := by
  constructor
  · intro s
    unfold generate_bot_reply
    rw [normalizeText_pyLower]
  · decide

/-- C9: keyword matching is raw substring containment without word
boundaries: a normalized text containing influenza selects the fever
category through the keyword flu when no emergency keyword is contained,
and one containing scold selects the respiratory category through the
keyword cold when no higher-precedence keyword is contained. -/
theorem C9_substring_matching_no_boundaries (s : String) :
    (hasSub (normalizeText s) "influenza".data = true →
     anyKeyword emergencyKeywords (normalizeText s) = false →
     generate_bot_reply s = feverReply) ∧
    (hasSub (normalizeText s) "scold".data = true →
     anyKeyword emergencyKeywords (normalizeText s) = false →
     anyKeyword feverKeywords (normalizeText s) = false →
     anyKeyword headacheKeywords (normalizeText s) = false →
     generate_bot_reply s = respiratoryReply) := by
  constructor
  · intro hinf hne
    have hflu : hasSub (normalizeText s) "flu".data = true :=
      hasSub_trans hinf (by decide)
    have hfev : anyKeyword feverKeywords (normalizeText s) = true := by
      unfold anyKeyword
      exact List.any_eq_true.mpr ⟨"flu", by decide, hflu⟩
    have ht : normalizeText s ≠ [] := ne_nil_of_hasSub hinf (by decide)
    unfold generate_bot_reply classifyCore
    rw [if_neg ht, if_neg (by simp [hne]), if_pos hfev]
  · intro hsc hne hnf hnh
    have hcold : hasSub (normalizeText s) "cold".data = true :=
      hasSub_trans hsc (by decide)
    have hresp : anyKeyword respiratoryKeywords (normalizeText s) = true := by
      unfold anyKeyword
      exact List.any_eq_true.mpr ⟨"cold", by decide, hcold⟩
    have ht : normalizeText s ≠ [] := ne_nil_of_hasSub hsc (by decide)
    unfold generate_bot_reply classifyCore
    rw [if_neg ht, if_neg (by simp [hne]), if_neg (by simp [hnf]),
        if_neg (by simp [hnh]), if_pos hresp]

/-- C9, witness at the concrete inputs influenza and scold. -/
theorem C9_substring_matching_no_boundaries_wit :
    generate_bot_reply "influenza" = feverReply ∧
    generate_bot_reply "scold" = respiratoryReply :=
  ⟨(C9_substring_matching_no_boundaries "influenza").1 (by decide) (by decide),
   (C9_substring_matching_no_boundaries "scold").2 (by decide) (by decide)
     (by decide) (by decide)⟩

/-- C10: an empty-string query with no coordinates triggers no external
search attempt and passes through the sample stage unchanged, and the
returned record carries the generic placeholder name with address Your
area while still echoing the empty string in its query field. -/
theorem C10_empty_query_echoed_not_searched (g g' : GeoOutcome)
    (country : Option String) :
    attemptsExternal (some "") none none = false ∧
    (∀ t, stage1 (some "") t = t) ∧
    emergency_lookup g (some "") none none country =
      emergency_lookup g' (some "") none none country ∧
    (emergency_lookup g (some "") none none country).query = some "" ∧
    (emergency_lookup g (some "") none none country).name =
      "Nearest Emergency Hospital" ∧
    (emergency_lookup g (some "") none none country).address = some "Your area" := by
  refine ⟨rfl, ?_, rfl, rfl, rfl, rfl⟩
  intro t
  simp [stage1, pyTruthy]
